import Mathlib

/-!
# Verification of the AIVA environmental fusion engine

Shallow embedding of the fusion code in `Backend/services/ai_brain.py`,
`Backend/services/vision.py`, `Backend/services/satellite.py` and the
coordinate handling of `Backend/main.py`.

Conventions of the embedding:
* Python numbers are rationals (`ℚ`); all arithmetic in the fused paths is
  exact decimal arithmetic, so `ℚ` represents it faithfully.
* A Python value that may be `None` is an `Option ℚ`.
* A provider response that may itself be `None` (falsy) and whose dict may
  lack a key is an `Option (Option ℚ)`: `none` = the whole response is
  absent/falsy, `some none` = response present but the key is missing
  (Python `.get(key, default)` then substitutes the default),
  `some (some v)` = the key is present with value `v`.
* Python arithmetic on `None` raises `TypeError`; attribute access on
  `None` (e.g. `None.get(...)`) raises `AttributeError`.  Fallible code is
  embedded as `Except PyError _`.
-/

/-- Untyped exceptions that the Python fusion code can raise at runtime. -/
inductive PyError where
  | typeError : PyError
  | attributeError : PyError
deriving DecidableEq, Repr

/-- Python `resp.get(key, d) if resp else None`
(`ai_brain.py` lines 51–53): absent response gives `None`; a present
response without the key gives the inline default `d`. -/
def pyGetOrNone (resp : Option (Option ℚ)) (d : ℚ) : Option ℚ :=
  match resp with
  | none => none
  | some field => some (field.getD d)

/-- The environmental-score formula of `ai_brain.py` line 57, applied only
when all three extracted values are non-`None` (lines 56–59). -/
def traditional_env_score (aqi temp veg_health : Option ℚ) : Option ℚ :=
  match aqi, temp, veg_health with
  | some a, some t, some v =>
      some ((100 - max 0 (a - 50)) * 0.3 + v * 0.5 + max 0 (50 - |t - 22|) * 0.2)
  | _, _, _ => none

/-- `_get_traditional_environmental_data` (ai_brain.py 42–70), restricted
to its `environmental_score` output: extracts aqi / temperature /
vegetation_health with the `.get(…, default) if resp else None` pattern of
lines 51–53 and then applies the score formula.  The raw provider
payloads that are echoed back unchanged are omitted. -/
def get_traditional_environmental_score
    (air_quality weather vegetation : Option (Option ℚ)) : Option ℚ :=
  traditional_env_score
    (pyGetOrNone air_quality 50)
    (pyGetOrNone weather 20)
    (pyGetOrNone vegetation 50)

/-- The agreement-tier rule of `ai_brain.py` lines 192–198. -/
def scoreAgreementTier (d : ℚ) : String :=
  if d < 10 then "high" else if d < 20 then "medium" else "low_agreement"

/-- The dict returned by `_calculate_enhanced_environmental_score`
(`fusion_method`, a constant string, omitted). -/
structure EnhancedScore where
  enhanced_score : ℚ
  traditional_ai_score : ℚ
  cnn_ai_score : ℚ
  score_agreement : String
  score_difference : ℚ
deriving DecidableEq, Repr

/-- `_calculate_enhanced_environmental_score(traditional_score, cnn_score)`
(ai_brain.py 184–207).  Either score being Python `None` makes line 189
`(cnn_score * 0.6) + (traditional_score * 0.4)` raise `TypeError`. -/
def calculate_enhanced_environmental_score (traditional_score cnn_score : Option ℚ) :
    Except PyError EnhancedScore :=
  match traditional_score, cnn_score with
  | some t, some c =>
      .ok { enhanced_score := c * 0.6 + t * 0.4
            traditional_ai_score := t
            cnn_ai_score := c
            score_agreement := scoreAgreementTier |t - c|
            score_difference := |t - c| }
  | _, _ => .error .typeError

/-- Strength order on agreement tiers: `high` > `medium` > `low_agreement`. -/
def tierStrength (s : String) : ℕ :=
  if s = "high" then 2 else if s = "medium" then 1 else 0

/-- The `vegetation_analysis` dict as built by the two constructor sites in
`vision.py`: `_combine_cnn_and_location_analysis` (lines 655–661, numeric
values) and `_simulate_cnn_analysis` (lines 611–617, all-`None` values).
The `source` echo field is omitted. -/
structure CnnVeg where
  cnn_health_score : Option ℚ
  cnn_predicted_ndvi : Option ℚ
  vegetation_status : String
  cnn_biomass_estimate : Option ℚ
deriving DecidableEq, Repr

/-- `_classify_vegetation_from_cnn` (vision.py 705–716): thresholds on the
0–1 health score, with strict comparisons and bottom label `critical`. -/
def classify_vegetation_from_cnn (health_score : ℚ) : String :=
  if health_score > 0.8 then "excellent"
  else if health_score > 0.6 then "good"
  else if health_score > 0.4 then "moderate"
  else if health_score > 0.2 then "poor"
  else "critical"

/-- The `vegetation_analysis` part of `_combine_cnn_and_location_analysis`
(vision.py 655–661): the 0–1 CNN health score is scaled by 100, the NDVI
and biomass pass through, the status is the CNN classification. -/
def combine_cnn_vegetation (health_score predicted_ndvi biomass_estimate : ℚ) : CnnVeg :=
  { cnn_health_score := some (health_score * 100)
    cnn_predicted_ndvi := some predicted_ndvi
    vegetation_status := classify_vegetation_from_cnn health_score
    cnn_biomass_estimate := some biomass_estimate }

/-- The `vegetation_analysis` part of `_simulate_cnn_analysis`
(vision.py 604–643), returned whenever no real satellite image is
available: every numeric entry is Python `None`. -/
def simulated_cnn_vegetation : CnnVeg :=
  { cnn_health_score := none
    cnn_predicted_ndvi := none
    vegetation_status := "unknown - no satellite data"
    cnn_biomass_estimate := none }

/-- The traditional-side status rule inlined at `ai_brain.py` line 147. -/
def traditionalStatus (traditional_health : ℚ) : String :=
  if traditional_health > 60 then "good"
  else if traditional_health > 30 then "moderate" else "poor"

/-- The dict returned by `_fuse_vegetation_analysis`, restricted to the
fields the fusion computes (the constant `fusion_method` /
`fusion_weights` entries and the input-echo dicts are omitted, except for
the two statuses which the echo dicts carry). -/
structure FusedVegetation where
  fused_ndvi : Option ℚ
  fused_health_score : ℚ
  consensus_status : String
  fusion_confidence : String
  traditional_status : String
  cnn_status : String
deriving DecidableEq, Repr

/-- `_fuse_vegetation_analysis(traditional_veg, cnn_veg)`
(ai_brain.py 130–182).

`traditional_veg` is `none` when the vegetation provider returned `None`
(then line 135 `traditional_veg.get(...)` raises `AttributeError`);
`some none` when the dict lacks the `vegetation_health` key (the inline
default 50 is used); `some (some h)` otherwise.  A `None` CNN health score
makes line 144 `(cnn_health * 0.7) + ...` raise `TypeError`. -/
def fuse_vegetation_analysis (traditional_veg : Option (Option ℚ)) (cnn_veg : CnnVeg) :
    Except PyError FusedVegetation :=
  match traditional_veg with
  | none => .error .attributeError
  | some tv =>
    let traditional_health := tv.getD 50
    match cnn_veg.cnn_health_score with
    | none => .error .typeError
    | some cnn_health =>
      let fused_health := cnn_health * 0.7 + traditional_health * 0.3
      let t_status := traditionalStatus traditional_health
      let c_status := cnn_veg.vegetation_status
      if t_status = c_status then
        .ok { fused_ndvi := cnn_veg.cnn_predicted_ndvi
              fused_health_score := fused_health
              consensus_status := t_status
              fusion_confidence := "high"
              traditional_status := t_status
              cnn_status := c_status }
      else
        .ok { fused_ndvi := cnn_veg.cnn_predicted_ndvi
              fused_health_score := fused_health
              consensus_status := c_status
              fusion_confidence := "medium"
              traditional_status := t_status
              cnn_status := c_status }

/-- One entry of a risk list.  Traditional risks carry a
`detection_method` tag; the CNN risk dicts built in
`_assess_cnn_environmental_risks` (vision.py 718–766) carry
`cnn_confidence`/`description` instead, so the tag is optional here and
those two CNN-only fields are omitted. -/
structure Risk where
  type : String
  severity : String
  detection_method : Option String
deriving DecidableEq, Repr

/-- The traditional risk list derived from the readings
(ai_brain.py 219–238): air pollution above AQI 100, temperature stress
outside (−10, 35), vegetation decline below health 30. -/
def traditional_risks_of (aqi temp veg_health : ℚ) : List Risk :=
  (if aqi > 100 then
    [{ type := "air_pollution"
       severity := if aqi > 150 then "high" else "moderate"
       detection_method := some "traditional_environmental_ai" }] else []) ++
  (if temp > 35 ∨ temp < -10 then
    [{ type := "temperature_stress"
       severity := if temp > 40 ∨ temp < -20 then "high" else "moderate"
       detection_method := some "traditional_environmental_ai" }] else []) ++
  (if veg_health < 30 then
    [{ type := "vegetation_decline"
       severity := if veg_health < 15 then "high" else "moderate"
       detection_method := some "traditional_environmental_ai" }] else [])

/-- The dict returned by `_combine_risk_assessments`. -/
structure CombinedRisks where
  all_detected_risks : List Risk
  traditional_ai_risks : List Risk
  cnn_ai_risks : List Risk
  combined_risk_level : String
  total_risks_detected : ℕ
  consensus_risks : List Risk
deriving DecidableEq, Repr

/-- `_combine_risk_assessments(traditional_data, cnn_risks)`
(ai_brain.py 209–254).

The three reading dicts are extracted with `.get(key, default)` and no
`None` guard (lines 215–217), so an absent provider response raises
`AttributeError`; a present response missing the key silently uses the
inline default (aqi 50, temperature 20, vegetation health 50).
`cnn_detected_risks` is `cnn_risks.get('detected_risks', [])`.
Line 253 hard-codes `consensus_risks` to the empty list
("Simplified for now"). -/
def combine_risk_assessments
    (air_quality weather vegetation : Option (Option ℚ))
    (cnn_detected_risks : List Risk) : Except PyError CombinedRisks :=
  match air_quality, weather, vegetation with
  | some aq, some w, some veg =>
    let aqi := aq.getD 50
    let temp := w.getD 20
    let veg_health := veg.getD 50
    let traditional_risks := traditional_risks_of aqi temp veg_health
    let all_risks := traditional_risks ++ cnn_detected_risks
    let risk_count := all_risks.length
    .ok { all_detected_risks := all_risks
          traditional_ai_risks := traditional_risks
          cnn_ai_risks := cnn_detected_risks
          combined_risk_level :=
            if risk_count > 2 then "high"
            else if risk_count > 0 then "moderate" else "low"
          total_risks_detected := risk_count
          consensus_risks := [] }
  | _, _, _ => .error .attributeError

/-- Python `int(q)`: truncation toward zero. -/
def pyInt (q : ℚ) : ℤ :=
  if 0 ≤ q then ⌊q⌋ else -⌊-q⌋

/-- Python float `%`: the result has the sign of the divisor
(for positive `b`, a value in `[0, b)`). -/
def pymod (a b : ℚ) : ℚ :=
  a - b * ⌊a / b⌋

/-- `_deg2tile_epsg4326` (satellite.py 302–323): clamps latitude to
[−90, 90], wraps longitude into [−180, 180), converts to tile indices and
clamps them to the matrix bounds.  The tile-matrix metadata lookup
(lines 311–315) is modelled by passing the looked-up matrix width and
height directly. -/
def deg2tile_epsg4326 (lat lon : ℚ) (matrix_width matrix_height : ℤ) : ℤ × ℤ :=
  let lat' := max (min lat 90) (-90)
  let lon' := pymod (lon + 180) 360 - 180
  let x := pyInt ((lon' + 180) / 360 * matrix_width)
  let y := pyInt ((90 - lat') / 180 * matrix_height)
  (max 0 (min x (matrix_width - 1)), max 0 (min y (matrix_height - 1)))

/-- `lat = data.get('latitude') or data.get('lat', 40.7128)`
(main.py line 66): a falsy `latitude` entry (absent, or exactly 0) falls
back to the `lat` entry, and only when that key is absent to the
default 40.7128. -/
def resolve_latitude (latitude lat : Option ℚ) : ℚ :=
  match latitude with
  | some v => if v = 0 then lat.getD 40.7128 else v
  | none => lat.getD 40.7128

/-- `lon = data.get('longitude') or data.get('lon', -74.0060)`
(main.py line 67). -/
def resolve_longitude (longitude lon : Option ℚ) : ℚ :=
  match longitude with
  | some v => if v = 0 then lon.getD (-74.0060) else v
  | none => lon.getD (-74.0060)

/-! ## Helper lemmas -/

/-- The both-present branch of the score fusion, written with the spec's
coefficient order and the tier rule inlined. -/
theorem score_fusion_both_present (t v : ℚ) :
    calculate_enhanced_environmental_score (some t) (some v) =
      .ok { enhanced_score := 0.6 * v + 0.4 * t
            traditional_ai_score := t
            cnn_ai_score := v
            score_agreement :=
              if |t - v| < 10 then "high"
              else if |t - v| < 20 then "medium" else "low_agreement"
            score_difference := |t - v| } := by
  have h : v * 0.6 + t * 0.4 = 0.6 * v + 0.4 * t := by ring
  simp [calculate_enhanced_environmental_score, scoreAgreementTier, h]

/-- Tiers only weaken as the delta grows. -/
theorem tier_monotone (d1 d2 : ℚ) (h : d1 ≤ d2) :
    tierStrength (scoreAgreementTier d2) ≤ tierStrength (scoreAgreementTier d1) := by
  unfold scoreAgreementTier tierStrength
  by_cases h2a : d2 < 10
  · have h1a : d1 < 10 := lt_of_le_of_lt h h2a
    simp [h1a, h2a]
  · by_cases h2b : d2 < 20
    · have h1b : d1 < 20 := lt_of_le_of_lt h h2b
      by_cases h1a : d1 < 10 <;> simp [h1a, h1b, h2a, h2b]
    · by_cases h1a : d1 < 10
      · simp [h1a, h2a, h2b]
      · by_cases h1b : d1 < 20 <;> simp [h1a, h1b, h2a, h2b]

/-- Evaluation of the vegetation fusion when the traditional health and
the full CNN vegetation dict are both present. -/
theorem veg_fusion_both_present (th ch ndvi biomass : ℚ) :
    fuse_vegetation_analysis (some (some th)) (combine_cnn_vegetation ch ndvi biomass) =
      .ok { fused_ndvi := some ndvi
            fused_health_score := ch * 100 * 0.7 + th * 0.3
            consensus_status :=
              if traditionalStatus th = classify_vegetation_from_cnn ch
              then traditionalStatus th else classify_vegetation_from_cnn ch
            fusion_confidence :=
              if traditionalStatus th = classify_vegetation_from_cnn ch
              then "high" else "medium"
            traditional_status := traditionalStatus th
            cnn_status := classify_vegetation_from_cnn ch } := by
  unfold fuse_vegetation_analysis combine_cnn_vegetation
  simp only [Option.getD_some]
  split_ifs <;> simp_all

/-- Evaluation of the combined risk level in terms of the risk count. -/
theorem combine_risk_level_eval (a t v : ℚ) (cnn : List Risk) :
    (combine_risk_assessments (some (some a)) (some (some t)) (some (some v)) cnn).map
      (fun r => r.combined_risk_level) =
    .ok (if (traditional_risks_of a t v).length + cnn.length > 2 then "high"
         else if (traditional_risks_of a t v).length + cnn.length > 0
         then "moderate" else "low") := by
  simp [combine_risk_assessments, Except.map, List.length_append]

/-! ## The claims -/

/-- **C1.** Score fusion with both sources present: fused score is
`0.6·vision + 0.4·traditional`, the delta is `|traditional − vision|`,
the agreement tier follows the 10/20 thresholds; scenario A
(70, 75 ↦ delta 5, "high", 73.0) holds, and the tier never weakens as the
delta decreases. -/
theorem C1_score_fusion (t v : ℚ)
    (ht : 0 ≤ t ∧ t ≤ 100) (hv : 0 ≤ v ∧ v ≤ 100) :
    calculate_enhanced_environmental_score (some t) (some v) =
      .ok { enhanced_score := 0.6 * v + 0.4 * t
            traditional_ai_score := t
            cnn_ai_score := v
            score_agreement :=
              if |t - v| < 10 then "high"
              else if |t - v| < 20 then "medium" else "low_agreement"
            score_difference := |t - v| }
    ∧ calculate_enhanced_environmental_score (some 70) (some 75) =
      .ok { enhanced_score := 73
            traditional_ai_score := 70
            cnn_ai_score := 75
            score_agreement := "high"
            score_difference := 5 }
    ∧ (∀ d1 d2 : ℚ, d1 ≤ d2 →
        tierStrength (scoreAgreementTier d2) ≤ tierStrength (scoreAgreementTier d1)) := by
  refine ⟨score_fusion_both_present t v, ?_, fun d1 d2 h => tier_monotone d1 d2 h⟩
  rw [score_fusion_both_present 70 75]
  have habs : |(70:ℚ) - 75| = 5 := by
    rw [show (70:ℚ) - 75 = -5 by norm_num, abs_neg, abs_of_nonneg] <;> norm_num
  rw [habs]
  norm_num

/-- Witness for C1 at traditional = 70, vision = 75. -/
theorem C1_score_fusion_witness :
    calculate_enhanced_environmental_score (some 70) (some 75) =
      .ok { enhanced_score := 73
            traditional_ai_score := 70
            cnn_ai_score := 75
            score_agreement := "high"
            score_difference := 5 } :=
  (C1_score_fusion 70 75 (by norm_num) (by norm_num)).2.1

/-- **C2.** (code bug) The fusion engine does not implement the claimed
failure semantics: when exactly one source is unavailable it raises an
untyped error instead of degrading, and when both are unavailable it
raises `TypeError`, not `AssessmentUnavailable` (no such exception type
exists anywhere in the code). -/
theorem C2_failure_semantics_bug :
    calculate_enhanced_environmental_score (some 73) none = .error .typeError
    ∧ fuse_vegetation_analysis (some (some 55)) simulated_cnn_vegetation = .error .typeError
    ∧ calculate_enhanced_environmental_score none none = .error .typeError := by
  refine ⟨rfl, rfl, rfl⟩

/-- **C3.** (code bug) There is no single-source mode: with the vision
source absent the vegetation fusion raises `TypeError` (instead of
returning `fusedHealth = traditionalHealth` tagged `traditional_only`) and
the score fusion raises `TypeError` (instead of passing the traditional
score through); with the traditional source absent the vegetation fusion
raises `AttributeError` and the score fusion raises `TypeError` (instead
of `visionHealth·100` / `visionScore` tagged `vision_only`). -/
theorem C3_single_source_raises :
    fuse_vegetation_analysis (some (some 70)) simulated_cnn_vegetation = .error .typeError
    ∧ calculate_enhanced_environmental_score (some 70) none = .error .typeError
    ∧ fuse_vegetation_analysis none (combine_cnn_vegetation 0.8 0.5 10) = .error .attributeError
    ∧ calculate_enhanced_environmental_score none (some 80) = .error .typeError := by
  refine ⟨rfl, rfl, rfl, rfl⟩

/-- **C7.** Vegetation fusion with both sources present: the vision health
score (0–1) is scaled by 100 on the vision side, then fused as
`0.7·visionHealth·100 + 0.3·traditionalHealth`; the NDVI passes through
unchanged. -/
theorem C7_vegetation_fusion (th vh ndvi biomass : ℚ)
    (hth : 0 ≤ th ∧ th ≤ 100) (hvh : 0 ≤ vh ∧ vh ≤ 1) :
    (fuse_vegetation_analysis (some (some th)) (combine_cnn_vegetation vh ndvi biomass)).map
      (fun r => (r.fused_health_score, r.fused_ndvi)) =
      .ok (0.7 * vh * 100 + 0.3 * th, some ndvi) := by
  rw [veg_fusion_both_present th vh ndvi biomass]
  have h : vh * 100 * 0.7 + th * 0.3 = 0.7 * vh * 100 + 0.3 * th := by ring
  simp [Except.map, h]

/-- Witness for C7 at traditional = 70, vision health 0.8, NDVI 0.5. -/
theorem C7_vegetation_fusion_witness :
    (fuse_vegetation_analysis (some (some 70)) (combine_cnn_vegetation 0.8 0.5 10)).map
      (fun r => (r.fused_health_score, r.fused_ndvi)) =
      .ok (0.7 * 0.8 * 100 + 0.3 * 70, some 0.5) :=
  C7_vegetation_fusion 70 0.8 0.5 10 (by norm_num) (by norm_num)

/-- **C8 counterexample.** The claim's shared five-bucket thresholds
(≥80 excellent on the traditional side) are not what the code computes: at
traditional health 85 and vision health score 0.85 — both "excellent"
under the claim's thresholds, so the claim predicts consensus confidence
"high" — the code's traditional classifier (ai_brain.py line 147) yields
"good", the labels disagree, and the confidence is "medium". -/
theorem C8_thresholds_counterexample :
    fuse_vegetation_analysis (some (some 85)) (combine_cnn_vegetation 0.85 0.5 10) =
      .ok { fused_ndvi := some 0.5
            fused_health_score := 85
            consensus_status := "excellent"
            fusion_confidence := "medium"
            traditional_status := "good"
            cnn_status := "excellent" } := by
  rw [veg_fusion_both_present 85 0.85 0.5 10]
  norm_num [traditionalStatus, classify_vegetation_from_cnn,
    Except.ok.injEq, FusedVegetation.mk.injEq]
  decide

/-- **C8 (amended).** The traditional side classifies health as "good"
(>60), "moderate" (>30) or "poor"; the vision side classifies the 0–1
score as "excellent" (>0.8), "good" (>0.6), "moderate" (>0.4), "poor"
(>0.2) or "critical".  When the two labels match the consensus is that
label with confidence "high"; otherwise the vision label wins with
confidence "medium".  Scenario E (traditional 65 "good", vision status
"good" ↦ consensus "good", confidence "high") holds. -/
theorem C8_status_consensus (th ch ndvi biomass : ℚ) :
    fuse_vegetation_analysis (some (some th)) (combine_cnn_vegetation ch ndvi biomass) =
      .ok { fused_ndvi := some ndvi
            fused_health_score := ch * 100 * 0.7 + th * 0.3
            consensus_status :=
              if traditionalStatus th = classify_vegetation_from_cnn ch
              then traditionalStatus th else classify_vegetation_from_cnn ch
            fusion_confidence :=
              if traditionalStatus th = classify_vegetation_from_cnn ch
              then "high" else "medium"
            traditional_status := traditionalStatus th
            cnn_status := classify_vegetation_from_cnn ch }
    ∧ fuse_vegetation_analysis (some (some 65)) (combine_cnn_vegetation 0.65 0.4 12) =
      .ok { fused_ndvi := some 0.4
            fused_health_score := 65
            consensus_status := "good"
            fusion_confidence := "high"
            traditional_status := "good"
            cnn_status := "good" } := by
  refine ⟨veg_fusion_both_present th ch ndvi biomass, ?_⟩
  rw [veg_fusion_both_present 65 0.65 0.4 12]
  norm_num [traditionalStatus, classify_vegetation_from_cnn,
    Except.ok.injEq, FusedVegetation.mk.injEq]

/-- **C4.** (code bug) `consensus_risks` is hard-coded empty: even when
the type "air_pollution" is detected by both methods (traditional AQI 160
risk and a CNN risk of the same type), the field is `[]` rather than the
cross-method intersection the claim describes. -/
theorem C4_consensus_risks_always_empty :
    (combine_risk_assessments (some (some 160)) (some (some 20)) (some (some 50))
        [{ type := "air_pollution", severity := "high", detection_method := none }]).map
      (fun r => (r.consensus_risks, r.traditional_ai_risks.map Risk.type,
                 r.cnn_ai_risks.map Risk.type)) =
    .ok ([], ["air_pollution"], ["air_pollution"]) := rfl

/-- **C6.** Risk fusion completeness and level: the fused list is the
concatenation of the traditional and vision risk lists (no deduplication,
no drops), and the combined level is "high" for more than two risks,
"moderate" for one or two, "low" for none. -/
theorem C6_risk_fusion (a t v : ℚ) (cnn : List Risk) :
    (combine_risk_assessments (some (some a)) (some (some t)) (some (some v)) cnn).map
        (fun r => r.all_detected_risks) = .ok (traditional_risks_of a t v ++ cnn)
    ∧ (combine_risk_assessments (some (some a)) (some (some t)) (some (some v)) cnn).map
        (fun r => r.all_detected_risks.length) =
      .ok ((traditional_risks_of a t v).length + cnn.length)
    ∧ ((traditional_risks_of a t v).length + cnn.length > 2 →
        (combine_risk_assessments (some (some a)) (some (some t)) (some (some v)) cnn).map
          (fun r => r.combined_risk_level) = .ok "high")
    ∧ ((traditional_risks_of a t v).length + cnn.length = 1 ∨
       (traditional_risks_of a t v).length + cnn.length = 2 →
        (combine_risk_assessments (some (some a)) (some (some t)) (some (some v)) cnn).map
          (fun r => r.combined_risk_level) = .ok "moderate")
    ∧ ((traditional_risks_of a t v).length + cnn.length = 0 →
        (combine_risk_assessments (some (some a)) (some (some t)) (some (some v)) cnn).map
          (fun r => r.combined_risk_level) = .ok "low") := by
  refine ⟨?_, ?_, ?_, ?_, ?_⟩
  · simp [combine_risk_assessments, Except.map]
  · simp [combine_risk_assessments, Except.map, List.length_append]
  · intro h
    rw [combine_risk_level_eval a t v cnn, if_pos h]
  · intro h
    rw [combine_risk_level_eval a t v cnn, if_neg (by omega), if_pos (by omega)]
  · intro h
    rw [combine_risk_level_eval a t v cnn, if_neg (by omega), if_neg (by omega)]

/-- Witness for C6: AQI 160, temperature 20, vegetation 50 and no CNN
risks give exactly one risk and level "moderate". -/
theorem C6_risk_fusion_witness :
    (combine_risk_assessments (some (some 160)) (some (some 20)) (some (some 50)) []).map
      (fun r => r.combined_risk_level) = .ok "moderate" :=
  (C6_risk_fusion 160 20 50 []).2.2.2.1 (by decide)

/-- **C5.** (code bug) The ScoreAggregator formula and the
whole-response-absent behaviour match the claim, but the claimed
"never substitutes an inline default" fails at field granularity: an
air-quality response that is present but lacks the `aqi` key gets the
inline default 50 (ai_brain.py line 51) and a score (75) is produced
where the claim requires UNAVAILABLE. -/
theorem C5_inline_default_bug :
    get_traditional_environmental_score (some none) (some (some 22)) (some (some 70)) = some 75
    ∧ get_traditional_environmental_score none (some (some 22)) (some (some 70)) = none
    ∧ (∀ a t v : ℚ,
        get_traditional_environmental_score (some (some a)) (some (some t)) (some (some v)) =
          some (0.3 * (100 - max 0 (a - 50)) + 0.5 * v + 0.2 * max 0 (50 - |t - 22|))) := by
  refine ⟨?_, rfl, ?_⟩
  · have hmax : max (0:ℚ) 50 = 50 := max_eq_right (by norm_num)
    simp only [get_traditional_environmental_score, pyGetOrNone, traditional_env_score,
      Option.getD_none, Option.getD_some, sub_self, max_self, abs_zero, sub_zero, hmax]
    norm_num
  intro a t v
  have h : (100 - max 0 (a - 50)) * 0.3 + v * 0.5 + max 0 (50 - |t - 22|) * 0.2 =
      0.3 * (100 - max 0 (a - 50)) + 0.5 * v + 0.2 * max 0 (50 - |t - 22|) := by ring
  simp [get_traditional_environmental_score, pyGetOrNone, traditional_env_score, h]

/-- **C9 counterexample.** Out-of-range coordinates do not cause a
`ValidationError`: the endpoint's coordinate resolution passes
latitude 100 and longitude 200 straight through to the analysis, and the
satellite tile computation silently normalises them — latitude 100 yields
the same tile as latitude 90, and longitude 200 the same tile as
longitude −160. -/
theorem C9_no_validation_counterexample :
    resolve_latitude (some 100) none = 100
    ∧ resolve_longitude (some 200) none = 200
    ∧ deg2tile_epsg4326 100 0 10 5 = deg2tile_epsg4326 90 0 10 5
    ∧ deg2tile_epsg4326 45 200 10 5 = deg2tile_epsg4326 45 (-160) 10 5 := by
  refine ⟨rfl, rfl, rfl, ?_⟩
  simp only [deg2tile_epsg4326, pymod, pyInt]
  norm_num

/-- **C9 (amended).** No coordinate validation exists: any non-zero
latitude or longitude (in range or not) is accepted unchanged by the
endpoint's coordinate resolution, and `_deg2tile_epsg4326` silently
normalises instead of raising — a latitude above 90 is clamped to 90, one
below −90 to −90, and the longitude is wrapped with period 360 into the
interval [−180, 180). -/
theorem C9_silent_clamp (lat lon v u : ℚ) (w h : ℤ) (hv : v ≠ 0) (hu : u ≠ 0) :
    (90 < lat → deg2tile_epsg4326 lat lon w h = deg2tile_epsg4326 90 lon w h)
    ∧ (lat < -90 → deg2tile_epsg4326 lat lon w h = deg2tile_epsg4326 (-90) lon w h)
    ∧ deg2tile_epsg4326 lat (lon + 360) w h = deg2tile_epsg4326 lat lon w h
    ∧ (-180 ≤ pymod (lon + 180) 360 - 180 ∧ pymod (lon + 180) 360 - 180 < 180)
    ∧ resolve_latitude (some v) none = v
    ∧ resolve_longitude (some u) none = u := by
  refine ⟨?_, ?_, ?_, ?_, ?_, ?_⟩
  · intro hhi
    simp only [deg2tile_epsg4326]
    rw [min_eq_right (le_of_lt hhi), min_self]
  · intro hlo
    simp only [deg2tile_epsg4326]
    rw [min_eq_left (by linarith : lat ≤ 90), max_eq_right (le_of_lt hlo),
      min_eq_left (by norm_num : (-90:ℚ) ≤ 90), max_self]
  · have hper : pymod (lon + 360 + 180) 360 = pymod (lon + 180) 360 := by
      unfold pymod
      rw [show (lon + 360 + 180) / 360 = (lon + 180) / 360 + 1 by ring, Int.floor_add_one]
      push_cast
      ring
    simp only [deg2tile_epsg4326, hper]
  · have h360 : (0:ℚ) < 360 := by norm_num
    have hb1 : (⌊(lon + 180) / 360⌋ : ℚ) * 360 ≤ lon + 180 :=
      (le_div_iff₀ h360).mp (Int.floor_le _)
    have hb2 : lon + 180 < ((⌊(lon + 180) / 360⌋ : ℚ) + 1) * 360 :=
      (div_lt_iff₀ h360).mp (Int.lt_floor_add_one _)
    unfold pymod
    constructor <;> nlinarith [hb1, hb2]
  · simp [resolve_latitude, hv]
  · simp [resolve_longitude, hu]

/-- Witness for C9: latitude 100 is silently clamped (tile matrix 10×5)
and longitude 200 is accepted unchanged by the endpoint. -/
theorem C9_silent_clamp_witness :
    deg2tile_epsg4326 100 0 10 5 = deg2tile_epsg4326 90 0 10 5
    ∧ resolve_longitude (some 200) none = 200 :=
  ⟨(C9_silent_clamp 100 0 45 200 10 5 (by norm_num) (by norm_num)).1 (by norm_num),
   (C9_silent_clamp 100 0 45 200 10 5 (by norm_num) (by norm_num)).2.2.2.2.2⟩

/-- **C10 counterexample.** A request body can give latitude 0 without the
default 40.7128 being substituted: with both `latitude: 0` and `lat: 0`
the resolved latitude is 0, and with `longitude: 0, lon: 3` the resolved
longitude is 3 — neither is the built-in default. -/
theorem C10_zero_not_replaced :
    resolve_latitude (some 0) (some 0) = 0
    ∧ resolve_longitude (some 0) (some 3) = 3
    ∧ (0:ℚ) ≠ 40.7128 ∧ (3:ℚ) ≠ -74.0060 := by
  refine ⟨rfl, rfl, by norm_num, by norm_num⟩

/-- **C10 (amended).** A `latitude` entry equal to 0 (Python falsy) or
absent falls back to the `lat` entry when that key is present — even if
its value is 0 — and only when `lat` is absent too is the built-in
default 40.7128 silently substituted; longitude behaves the same with
keys `longitude`/`lon` and default −74.0060.  A non-zero `latitude` is
used as given. -/
theorem C10_default_fallback_chain :
    resolve_latitude (some 0) none = 40.7128
    ∧ resolve_latitude none none = 40.7128
    ∧ resolve_longitude (some 0) none = -74.0060
    ∧ resolve_longitude none none = -74.0060
    ∧ (∀ l : ℚ, resolve_latitude (some 0) (some l) = l)
    ∧ (∀ l : ℚ, resolve_latitude none (some l) = l)
    ∧ (∀ x : ℚ, x ≠ 0 → resolve_latitude (some x) (some 99) = x) := by
  refine ⟨rfl, rfl, rfl, rfl, fun l => rfl, fun l => rfl, fun x hx => ?_⟩
  simp [resolve_latitude, hx]

/-- Witness for C10 at latitude 7 with a `lat` entry 99. -/
theorem C10_default_fallback_chain_witness :
    resolve_latitude (some 7) (some 99) = 7 :=
  C10_default_fallback_chain.2.2.2.2.2.2 7 (by norm_num)
